import Mathlib

/-!
Shallow embedding of the `httption` package (Go): a configurable HTTP request
executor (`BaseAction`) with composable options, response classification,
a retry loop and a forced-repeat mode.  Pure data is embedded directly;
the HTTP transport is an oracle mapping each attempt number to an outcome;
Go `error` values are embedded by their message string; Go `nil` slices and
`nil` maps are embedded as `Option`; a Go runtime panic (write to a nil map)
is embedded as the `none` result of an option application.
-/

namespace Httption

/-- Embeds a Go `error` value by its message (the package only ever compares
errors against `nil`; message text identifies the sentinel errors). -/
structure GoError where
  msg : String
deriving DecidableEq, Repr

/-- The left-brace character, kept out of string literals. -/
def lbrace : Char := Char.ofNat 123

/-- The right-brace character, kept out of string literals. -/
def rbrace : Char := Char.ofNat 125

/-- The apostrophe character. -/
def apos : String := String.singleton (Char.ofNat 39)

/-- Embeds the Go dynamic values (`interface` / `any`) that the package can
observe after `json.Unmarshal` into `map[string]any`, together with the Go
`int` case needed to embed the type assertion `.(int)` faithfully.
`vNil` is the nil interface (missing map key, JSON `null`);
`vFloat64` is the type `encoding/json` uses for every JSON number when
decoding into `any` (only integral values occur in this development, so the
numeric payload is an `Int`, exact for these magnitudes). -/
inductive GoValue where
  | vNil : GoValue
  | vBool : Bool → GoValue
  | vInt : Int → GoValue
  | vFloat64 : Int → GoValue
  | vString : String → GoValue
  | vArr : List GoValue → GoValue
  | vObj : List (String × GoValue) → GoValue

/-- Embeds the Go type assertion `v.(int)` in its two-result form
`code, ok := v.(int)`: it succeeds only on a dynamic value that actually
holds a Go `int` — in particular it fails (returning the zero value `0`)
on the `float64` values produced by `encoding/json`. -/
def goAssertInt : GoValue → Int × Bool
  | GoValue.vInt n => (n, true)
  | _ => (0, false)

/-- Embeds the Go type assertion `v.(string)` in its two-result form. -/
def goAssertString : GoValue → String × Bool
  | GoValue.vString s => (s, true)
  | _ => ("", false)

/-- Embeds Go map indexing `m[k]` on a `map[string]any`: a missing key
yields the zero value, the nil interface. -/
def goIndex (m : List (String × GoValue)) (k : String) : GoValue :=
  (m.lookup k).getD GoValue.vNil

/-- Association-list update with Go map-store semantics: replace the value
of an existing key, otherwise add the pair.  Used to embed `m[k] = v` for
Go maps (whose keys are unique). -/
def assocSet {α β : Type} [BEq α] : List (α × β) → α → β → List (α × β)
  | [], k, v => [(k, v)]
  | (k', v') :: t, k, v =>
    if k' == k then (k, v) :: t else (k', v') :: assocSet t k v

/-! ### JSON decoding model

`handleResponse` calls `json.Unmarshal(respBody, &map[string]any{...})`.
The model below parses the subset of JSON the package actually receives
(objects, arrays, strings without escape sequences, integer numbers,
booleans, null); JSON numbers decode to `vFloat64`, exactly as
`encoding/json` decodes numbers into `any` as `float64`, never `int`.
Duplicate object keys keep the last occurrence, as in `encoding/json`. -/

/-- Skip JSON whitespace. -/
def skipWs : List Char → List Char
  | [] => []
  | c :: cs =>
    if c = ' ' || c = '\t' || c = '\n' || c = '\r' then skipWs cs else c :: cs

/-- Read the characters of a JSON string literal up to the closing quote
(escape sequences are outside the modelled subset). -/
def parseStrChars : List Char → Option (List Char × List Char)
  | [] => none
  | c :: cs =>
    if c = '"' then some ([], cs)
    else if c = '\\' then none
    else match parseStrChars cs with
      | some (s, rest) => some (c :: s, rest)
      | none => none

/-- Split a leading run of decimal digits. -/
def takeDigits : List Char → List Char × List Char
  | [] => ([], [])
  | c :: cs =>
    if c.isDigit then
      let p := takeDigits cs
      (c :: p.1, p.2)
    else ([], c :: cs)

/-- Numeric value of a digit run. -/
def digitsVal (ds : List Char) : Nat :=
  ds.foldl (fun a c => a * 10 + (c.toNat - 48)) 0

mutual

/-- Parse one JSON value (fuel-indexed recursion; the callers supply fuel
exceeding the input length, which bounds the recursion depth). -/
def parseValue : Nat → List Char → Option (GoValue × List Char)
  | 0, _ => none
  | fuel + 1, cs =>
    match skipWs cs with
    | [] => none
    | c :: rest =>
      if c = '"' then
        match parseStrChars rest with
        | some (s, r) => some (GoValue.vString (String.mk s), r)
        | none => none
      else if c = lbrace then
        match skipWs rest with
        | d :: r => if d = rbrace then some (GoValue.vObj [], r)
                    else parseMembers fuel (d :: r)
        | [] => none
      else if c = '[' then
        match skipWs rest with
        | d :: r => if d = ']' then some (GoValue.vArr [], r)
                    else match parseElems fuel (d :: r) with
                      | some (xs, r2) => some (GoValue.vArr xs, r2)
                      | none => none
        | [] => none
      else if c = 't' then
        match rest with
        | 'r' :: 'u' :: 'e' :: r => some (GoValue.vBool true, r)
        | _ => none
      else if c = 'f' then
        match rest with
        | 'a' :: 'l' :: 's' :: 'e' :: r => some (GoValue.vBool false, r)
        | _ => none
      else if c = 'n' then
        match rest with
        | 'u' :: 'l' :: 'l' :: r => some (GoValue.vNil, r)
        | _ => none
      else if c = '-' then
        match takeDigits rest with
        | ([], _) => none
        | (ds, r) => some (GoValue.vFloat64 (-(digitsVal ds : Int)), r)
      else if c.isDigit then
        match takeDigits (c :: rest) with
        | ([], _) => none
        | (ds, r) => some (GoValue.vFloat64 (digitsVal ds : Int), r)
      else none

/-- Parse one or more `"key": value` members followed by the closing brace. -/
def parseMembers : Nat → List Char → Option (GoValue × List Char)
  | 0, _ => none
  | fuel + 1, cs =>
    match cs with
    | c :: rest =>
      if c = '"' then
        match parseStrChars rest with
        | some (ks, r1) =>
          (match skipWs r1 with
           | d :: r2 =>
             if d = ':' then
               match parseValue fuel r2 with
               | some (v, r3) =>
                 (match skipWs r3 with
                  | e :: r4 =>
                    if e = ',' then
                      match parseMembers fuel (skipWs r4) with
                      | some (GoValue.vObj fields, r5) =>
                          some (GoValue.vObj ((String.mk ks, v) :: fields), r5)
                      | _ => none
                    else if e = rbrace then
                      some (GoValue.vObj [(String.mk ks, v)], r4)
                    else none
                  | [] => none)
               | none => none
             else none
           | [] => none)
        | none => none
      else none
    | [] => none

/-- Parse one or more array elements followed by the closing bracket. -/
def parseElems : Nat → List Char → Option (List GoValue × List Char)
  | 0, _ => none
  | fuel + 1, cs =>
    match parseValue fuel cs with
    | some (v, r1) =>
      (match skipWs r1 with
       | e :: r2 =>
         if e = ',' then
           match parseElems fuel r2 with
           | some (xs, r3) => some (v :: xs, r3)
           | none => none
         else if e = ']' then some ([v], r2)
         else none
       | [] => none)
    | none => none

end

/-- Last-occurrence-wins normalisation of decoded object fields, matching
`encoding/json` semantics for duplicate keys. -/
def objNormalize (fields : List (String × GoValue)) : List (String × GoValue) :=
  fields.foldl (fun m kv => assocSet m kv.1 kv.2) []

/-- Embeds `json.Unmarshal(body, &m)` for `m : map[string]any`: the body
must be a single JSON object (with only whitespace around it), otherwise
unmarshalling reports an error (`none`). -/
def jsonUnmarshalMap (s : String) : Option (List (String × GoValue)) :=
  let cs := s.toList
  match parseValue (cs.length + 1) cs with
  | some (GoValue.vObj fields, rest) =>
    if (skipWs rest).isEmpty then some (objNormalize fields) else none
  | _ => none

/-- The error value returned by `json.Unmarshal` on malformed input (its
concrete message varies with the input in Go; the model fixes one message,
which the package never inspects). -/
def errJsonUnmarshal : GoError := GoError.mk "json: unmarshal error"

/-! ### String-keyed maps (Go `map[string]string`) -/

/-- Embeds Go `map[string]string` as an association list whose keys are
unique (the Go map invariant); iteration order is the list order — the
operations below are insensitive to it on unique-key maps. -/
abbrev GoMap := List (String × String)

/-- Embeds the inner loop `for k, v := range mm { source[k] = v }`. -/
def insertAll (source : GoMap) (mm : GoMap) : GoMap :=
  mm.foldl (fun s kv => assocSet s kv.1 kv.2) source

/-- Embeds `mergeMaps(source, maps...)`: store every pair of every map
into `source`, in order. -/
def mergeMaps (source : GoMap) (maps : List GoMap) : GoMap :=
  maps.foldl (fun s mm => insertAll s mm) source

/-- Embeds `mergedMaps(maps...)`: merge into a fresh empty map. -/
def mergedMaps (maps : List GoMap) : GoMap :=
  mergeMaps [] maps

/-! ### Sentinel errors of the package -/

/-- Sentinel `ErrInvalidPayment = errors.New("Invalid payment")`. -/
def ErrInvalidPayment : GoError := GoError.mk "Invalid payment"

/-- Sentinel `ErrNeedEmailAuthorize`. -/
def ErrNeedEmailAuthorize : GoError :=
  GoError.mk ("This client needs to be authorized for purchases. We" ++ apos ++
    "ve sent you an email. Click the link on the email and then retry the purchase.")

/-- Sentinel `ErrEmptyPaymentMethods = errors.New("Empty payment methods")`. -/
def ErrEmptyPaymentMethods : GoError := GoError.mk "Empty payment methods"

/-- Sentinel `ErrTooManyRequests = errors.New("Too many requests")`. -/
def ErrTooManyRequests : GoError := GoError.mk "Too many requests"

/-- Sentinel `ErrEmptyRequest`. -/
def ErrEmptyRequest : GoError :=
  GoError.mk "action request is empty. Do Setup() method before action request performed"

/-- The error built inline by `BaseAction.do` when a status-code handler
returns true: `errors.New("resp.statusHandler")`. -/
def errStatusHandler : GoError := GoError.mk "resp.statusHandler"

/-! ### Requests, responses, the action state -/

/-- Embeds the `*http.Request` produced by `prepareRequest`: the template
data it was built from.  (Header-key canonicalisation by `Header.Set` is
not modelled; no claim observes the headers of the built request.) -/
structure BuiltRequest where
  method : String
  url : String
  body : Option String
  headers : GoMap
deriving DecidableEq, Repr

/-- Embeds the parts of `*http.Response` that the package reads: the status
code, the `content-type` header value, and `resp.Request.URL.String()`
(the URL of the request the response answers). -/
structure Resp where
  statusCode : Nat
  contentType : String
  requestURL : String
deriving DecidableEq, Repr

/-- Embeds `BaseAction`.  Byte slices are `Option String` (`none` = nil
slice); the handler table is `Option` (`none` = nil map) with each
registered handler embedded by the boolean verdict it returns (the
`*http.Client` argument is opaque to the model).  The `*http.Client` and
`*zap.Logger` fields are omitted: the transport is the attempt oracle of
`doAttempt`, and logging has no observable effect.  `buildCount` is a ghost
field, not in the source: it counts executions of `prepareRequest` so that
specifications can observe whether a request was rebuilt; no definition
branches on it. -/
structure BaseAction where
  name : String
  method : String
  url : String
  request : Option BuiltRequest
  response : Option Resp
  requestBodyBuffer : Option String
  responseBodyBuffer : Option String
  headers : GoMap
  statusCodeHandlers : Option (List (Nat × Bool))
  tryCount : Nat
  maxRetry : Nat
  needRetry : Bool
  retryDelay : Nat
  err : Option GoError
  buildCount : Nat
deriving DecidableEq, Repr

/-- Embeds `NewBaseAction(client, method, url)`: only `method`, `url`,
`headers` (fresh empty map) and the logger are set; every other field keeps
its Go zero value — in particular `statusCodeHandlers` stays a nil map. -/
def NewBaseAction (method url : String) : BaseAction :=
  { name := ""
    method := method
    url := url
    request := none
    response := none
    requestBodyBuffer := none
    responseBodyBuffer := none
    headers := []
    statusCodeHandlers := none
    tryCount := 0
    maxRetry := 0
    needRetry := false
    retryDelay := 0
    err := none
    buildCount := 0 }

/-- Accessor `Error()`: returns the retained last error. -/
def Error (ba : BaseAction) : Option GoError := ba.err

/-- Go HTTP method token characters (`httpguts.IsTokenRune`). -/
def validMethodChar (c : Char) : Bool :=
  c.isAlphanum || c ∈ ['!', '#', '$', '%', '&', '*', '+', '-', '.', '^', '_', '|', '~']
    || c = Char.ofNat 39 || c = Char.ofNat 96

/-- Go `net/http` method validity: non-empty, all token characters. -/
def validMethod (m : String) : Bool :=
  m.length > 0 && m.toList.all validMethodChar

/-- Embeds `prepareRequest(method, url, bodyBytes, headers)`:
`http.NewRequest` defaults an empty method to GET and rejects invalid
method tokens (URL-parse failures are not modelled; no claim exercises
them), then every header pair is set on the request. -/
def prepareRequest (method url : String) (bodyBytes : Option String)
    (headers : GoMap) : Except GoError BuiltRequest :=
  let m := if method = "" then "GET" else method
  if validMethod m then
    Except.ok { method := m, url := url, body := bodyBytes, headers := headers }
  else
    Except.error (GoError.mk ("net/http: invalid method " ++ method))

/-- Embeds `handleResponse(resp, respBody)`: 429 maps to
`ErrTooManyRequests`; 400 inspects a JSON body — `code, _ :=
respData["code"].(int)` then a switch on 100008/100056, then the
`message` string — otherwise a bare "BadRequest" error (a nil body gives
"BadRequest noBody"); any other status outside [200,300) yields the
URL-and-body message; [200,300) succeeds. -/
def handleResponse (resp : Resp) (respBody : Option String) : Option GoError :=
  if resp.statusCode = 429 then some ErrTooManyRequests
  else if resp.statusCode = 400 then
    match respBody with
    | some body =>
      if resp.contentType = "application/json" then
        match jsonUnmarshalMap body with
        | none => some errJsonUnmarshal
        | some respData =>
          let code := (goAssertInt (goIndex respData "code")).1
          if code = 100008 then some ErrInvalidPayment
          else if code = 100056 then some ErrNeedEmailAuthorize
          else
            let m := goAssertString (goIndex respData "message")
            if m.2 && m.1 = "Invalid payment" then some ErrInvalidPayment
            else some (GoError.mk "BadRequest")
      else some (GoError.mk "BadRequest")
    | none => some (GoError.mk "BadRequest noBody")
  else if !(200 ≤ resp.statusCode && resp.statusCode < 300) then
    some (GoError.mk (resp.requestURL ++ " status is not ok: " ++ respBody.getD ""))
  else none

/-! ### Options -/

/-- Embeds the `Option` closures of the package as explicit records;
`applyOption` is the interpreter.  The logger and proxy options are
omitted (they touch only the omitted logger/transport collaborators and no
claim exercises them).  Handlers are embedded by their boolean verdict. -/
inductive GoOption where
  | withHeaders : GoMap → GoOption
  | withAppendHeaders : GoMap → GoOption
  | withPrependHeaders : GoMap → GoOption
  | withBodyString : String → GoOption
  | withBodyBytes : Option String → GoOption
  | withRetry : Option Nat → Option Bool → Option Nat → GoOption
  | withMaxRetry : Nat → GoOption
  | withNeedRetry : Bool → GoOption
  | withRetryDelay : Nat → GoOption
  | withStatusCodeHandler : Nat → Bool → GoOption

/-- Applies one option to the action.  The result is `none` when the
option hits a Go runtime panic: `WithStatusCodeHandler` assigns into
`ba.statusCodeHandlers`, which panics when that map is nil.  Otherwise the
result carries the updated action and the error returned by the option (all
embedded options return nil; the error slot mirrors the source shape
`Option func(ba *BaseAction) error`). -/
def applyOption : GoOption → BaseAction → Option (BaseAction × Option GoError)
  | GoOption.withHeaders h, ba => some ({ ba with headers := h }, none)
  | GoOption.withAppendHeaders h, ba =>
      some ({ ba with headers := mergedMaps [ba.headers, h] }, none)
  | GoOption.withPrependHeaders h, ba =>
      some ({ ba with headers := mergedMaps [h, ba.headers] }, none)
  | GoOption.withBodyString s, ba =>
      some ({ ba with requestBodyBuffer := some s }, none)
  | GoOption.withBodyBytes b, ba =>
      some ({ ba with requestBodyBuffer := b }, none)
  | GoOption.withRetry mr nr rd, ba =>
      some ({ ba with
                maxRetry := mr.getD ba.maxRetry
                needRetry := nr.getD ba.needRetry
                retryDelay := rd.getD ba.retryDelay }, none)
  | GoOption.withMaxRetry n, ba => some ({ ba with maxRetry := n }, none)
  | GoOption.withNeedRetry b, ba => some ({ ba with needRetry := b }, none)
  | GoOption.withRetryDelay d, ba => some ({ ba with retryDelay := d }, none)
  | GoOption.withStatusCodeHandler code h, ba =>
      match ba.statusCodeHandlers with
      | none => none
      | some hs =>
          some ({ ba with statusCodeHandlers := some (assocSet hs code h) }, none)

/-- Embeds the option loop of `Setup`: apply options in order, stopping at
the first error (and propagating a panic). -/
def applyOptions : List GoOption → BaseAction → Option (BaseAction × Option GoError)
  | [], ba => some (ba, none)
  | o :: os, ba =>
    match applyOption o ba with
    | none => none
    | some (ba1, some e) => some (ba1, some e)
    | some (ba1, none) => applyOptions os ba1

/-- Embeds `BaseAction.Setup(opts...)`: apply the options, then build the
request from the template — but only if no request has been built yet
(`if ba.request == nil`); `ba.err` is set to the build result
unconditionally in that branch.  The ghost `buildCount` increments on each
successful build. -/
def Setup (opts : List GoOption) (ba : BaseAction) :
    Option (BaseAction × Option GoError) :=
  match applyOptions opts ba with
  | none => none
  | some (ba1, some e) => some (ba1, some e)
  | some (ba1, none) =>
    match ba1.request with
    | some _ => some (ba1, none)
    | none =>
      match prepareRequest ba1.method ba1.url ba1.requestBodyBuffer ba1.headers with
      | Except.error e => some ({ ba1 with err := some e }, some e)
      | Except.ok req =>
          some ({ ba1 with err := none, request := some req,
                           buildCount := ba1.buildCount + 1 }, none)

/-! ### Dispatch -/

/-- Interaction of one attempt with the transport (`ba.client.Do` plus
`io.ReadAll(resp.Body)`): either the send fails, or a response arrives
with a status code, a `content-type` header and a body-read result. -/
inductive AttemptOutcome where
  | sendErr : GoError → AttemptOutcome
  | resp : Nat → String → Except GoError String → AttemptOutcome

/-- Verdict of the registered handler for a status code: false when the
handler table is nil or has no entry for the code (`BaseAction.do` guards
with `ba.statusCodeHandlers != nil` and a map-lookup `ok` check). -/
def handlerVerdict : Option (List (Nat × Bool)) → Nat → Bool
  | none, _ => false
  | some hs, status =>
    match hs.lookup status with
    | some b => b
    | none => false

/-- Embeds `BaseAction.do()`.  The transport oracle `env` maps the attempt
number (the incremented `tryCount`) to the outcome of that attempt.  Mirrors the
source order: increment `tryCount`; fail with `ErrEmptyRequest` on a nil
request; send (`ba.err` is assigned the send error, nil on success);
record the response; read the body; consult the status-code handler
(rejection returns the inline error without touching `ba.err`); classify
via `handleResponse` (`ba.err` is assigned the classification result, and
a 429 status is surfaced as `ErrTooManyRequests`); on success store the
body into `responseBodyBuffer`. -/
def doAttempt (env : Nat → AttemptOutcome) (ba : BaseAction) :
    BaseAction × Option GoError :=
  let ba := { ba with tryCount := ba.tryCount + 1 }
  match ba.request with
  | none => (ba, some ErrEmptyRequest)
  | some req =>
    match env ba.tryCount with
    | AttemptOutcome.sendErr e => ({ ba with err := some e }, some e)
    | AttemptOutcome.resp status ctype readRes =>
      let resp : Resp := { statusCode := status, contentType := ctype,
                           requestURL := req.url }
      let ba := { ba with err := none, response := some resp }
      match readRes with
      | Except.error e => (ba, some e)
      | Except.ok body =>
        if handlerVerdict ba.statusCodeHandlers status then
          (ba, some errStatusHandler)
        else
          match handleResponse resp (some body) with
          | some e =>
            if status = 429 then ({ ba with err := some e }, some ErrTooManyRequests)
            else ({ ba with err := some e }, some e)
          | none =>
            ({ ba with err := none, responseBodyBuffer := some body }, none)

/-- Fuel-indexed transcription of the retry loop in `BaseAction.Do`:
compute `retry` from the pre-attempt `tryCount` (`retry = tryCount <=
maxRetry` when `maxRetry > 0`, else false), run one attempt, stop on
success, return the error when `retry` is false, otherwise loop (the
`retryDelay` wait has no observable effect in the model).  The fuel-0 case
behaves as a final non-retried attempt; `doLoop` supplies fuel exceeding
the iteration count of the loop, so that case is unreachable there (see
`doLoopFuel_fuel_irrelevant`). -/
def doLoopFuel (env : Nat → AttemptOutcome) : Nat → BaseAction → BaseAction × Option GoError
  | 0, ba => doAttempt env ba
  | fuel + 1, ba =>
    let retry : Bool := if 0 < ba.maxRetry then decide (ba.tryCount ≤ ba.maxRetry) else false
    match doAttempt env ba with
    | (ba1, none) => (ba1, none)
    | (ba1, some e) => if retry then doLoopFuel env fuel ba1 else (ba1, some e)

/-- The retry loop of `BaseAction.Do`, run with sufficient fuel. -/
def doLoop (env : Nat → AttemptOutcome) (ba : BaseAction) :
    BaseAction × Option GoError :=
  doLoopFuel env (ba.maxRetry + 2) ba

/-- Embeds `BaseAction.Repeat(setupAction, opts...)`: run `Setup` (note:
the `setupAction` flag is never read by the source body), then a single
`do()` — not the retry loop. -/
def Repeat (env : Nat → AttemptOutcome) (setupAction : Bool)
    (opts : List GoOption) (ba : BaseAction) :
    Option (BaseAction × Option GoError) :=
  match Setup opts ba with
  | none => none
  | some (ba1, some e) => some (ba1, some e)
  | some (ba1, none) => some (doAttempt env ba1)

/-- Embeds `BaseAction.Do(opts...)`: `Setup`, then the retry loop, then —
only when the loop ended without error and `needRetry` is set — a single
`Repeat(false)` whose result is returned. -/
def Do (env : Nat → AttemptOutcome) (opts : List GoOption) (ba : BaseAction) :
    Option (BaseAction × Option GoError) :=
  match Setup opts ba with
  | none => none
  | some (ba1, some e) => some (ba1, some e)
  | some (ba1, none) =>
    match doLoop env ba1 with
    | (ba2, some e) => some (ba2, some e)
    | (ba2, none) =>
      if ba2.needRetry then Repeat env false [] ba2 else some (ba2, none)

/-! ### Concrete transport oracles used by examples and counterexamples -/

/-- Every attempt is answered with status 429 (rate-limited). -/
def env429 (ct body : String) : Nat → AttemptOutcome :=
  fun _ => AttemptOutcome.resp 429 ct (Except.ok body)

/-- Every attempt succeeds with status 200 and body "ok". -/
def env200 : Nat → AttemptOutcome :=
  fun _ => AttemptOutcome.resp 200 "" (Except.ok "ok")

/-- Every send fails at the transport level. -/
def envSendFail : Nat → AttemptOutcome :=
  fun _ => AttemptOutcome.sendErr (GoError.mk "connection refused")

/-! ### Association-list lemmas for the header-merge operations -/

/-- First-some choice on options; the lookup of a two-map merge is the
lookup in the winning map, falling back to the other. -/
def orOpt {α : Type} (a b : Option α) : Option α :=
  match a with
  | some v => some v
  | none => b

theorem lookup_eq_none_of_not_mem {α β : Type} [BEq α] [LawfulBEq α]
    (l : List (α × β)) (a : α) (h : a ∉ l.map Prod.fst) :
    l.lookup a = none := by
  induction l with
  | nil => rfl
  | cons p t ih =>
    simp only [List.map_cons, List.mem_cons] at h
    push_neg at h
    have hb : (a == p.1) = false := beq_eq_false_iff_ne.mpr h.1
    simpa [List.lookup, hb] using ih h.2

theorem lookup_assocSet {α β : Type} [BEq α] [LawfulBEq α]
    (m : List (α × β)) (k k' : α) (v : β) :
    (assocSet m k v).lookup k' = if k' == k then some v else m.lookup k' := by
  induction m with
  | nil =>
    simp only [assocSet, List.lookup]
    cases h : (k' == k) <;> simp [h]
  | cons p t ih =>
    rcases p with ⟨k1, v1⟩
    by_cases h : k1 = k
    · subst h
      simp only [assocSet, beq_self_eq_true, if_true, List.lookup]
      cases h2 : (k' == k1) <;> simp [h2]
    · have hb : (k1 == k) = false := beq_eq_false_iff_ne.mpr h
      simp only [assocSet, hb, Bool.false_eq_true, if_false, List.lookup]
      cases h2 : (k' == k1)
      · simp only [h2, ih]
      · have hk : k' = k1 := eq_of_beq h2
        have hkk : (k' == k) = false := by
          refine beq_eq_false_iff_ne.mpr ?_
          rw [hk]; exact h
        simp [h2, hkk]

theorem lookup_insertAll (m l : GoMap) (k : String)
    (hl : (l.map Prod.fst).Nodup) :
    (insertAll m l).lookup k = orOpt (l.lookup k) (m.lookup k) := by
  induction l generalizing m with
  | nil => simp [insertAll, orOpt]
  | cons p t ih =>
    rcases p with ⟨a, b⟩
    simp only [List.map_cons, List.nodup_cons] at hl
    have step : insertAll m ((a, b) :: t) = insertAll (assocSet m a b) t := rfl
    rw [step, ih _ hl.2]
    by_cases hk : k = a
    · subst hk
      have ht : t.lookup k = none := lookup_eq_none_of_not_mem t k hl.1
      simp [List.lookup, lookup_assocSet, ht, orOpt]
    · have hb : (k == a) = false := beq_eq_false_iff_ne.mpr hk
      simp [List.lookup, lookup_assocSet, hb, orOpt]

theorem lookup_mergedMaps_pair (l1 l2 : GoMap) (k : String)
    (h1 : (l1.map Prod.fst).Nodup) (h2 : (l2.map Prod.fst).Nodup) :
    (mergedMaps [l1, l2]).lookup k = orOpt (l2.lookup k) (l1.lookup k) := by
  have hm : mergedMaps [l1, l2] = insertAll (insertAll [] l1) l2 := rfl
  rw [hm, lookup_insertAll _ _ _ h2, lookup_insertAll _ _ _ h1]
  cases l2.lookup k <;> cases l1.lookup k <;> simp [orOpt, List.lookup]

/-! ### Concrete fixtures -/

/-- Body of a 400 response carrying a payment error code (braces escaped). -/
def bodyCode100008 : String := "\x7b\"code\":100008\x7d"

/-- Body of a 400 response carrying the email-authorization code. -/
def bodyCode100056 : String := "\x7b\"code\":100056\x7d"

/-- Body of a 400 response carrying the invalid-payment message. -/
def bodyMsgInvalid : String := "\x7b\"message\":\"Invalid payment\"\x7d"

/-- Body of a 400 response carrying unrelated JSON. -/
def bodyOther : String := "\x7b\"foo\":\"bar\"\x7d"

/-- A built request for `GET u`. -/
def reqU : BuiltRequest := { method := "GET", url := "u", body := none, headers := [] }

/-- A fresh action whose handler table was initialised with a handler for
status 200 that returns true. -/
def baHandler200 : BaseAction :=
  { NewBaseAction "GET" "u" with statusCodeHandlers := some [(200, true)] }

/-- Action `baHandler200` with the request already built. -/
def baHandler200Built : BaseAction :=
  { baHandler200 with request := some reqU }

/-- A fresh action configured with one retry, request already built. -/
def baRetry1Built : BaseAction :=
  { NewBaseAction "GET" "u" with maxRetry := 1, request := some reqU }

/-- A fresh `GET u` action with the request already built. -/
def baGetUBuilt : BaseAction :=
  { NewBaseAction "GET" "u" with request := some reqU }

/-- Header fixture: the existing headers of the action. -/
def hdrsOld : GoMap := [("a", "1"), ("b", "2")]

/-- Header fixture: the option-supplied headers (conflicting on "b"). -/
def hdrsNew : GoMap := [("b", "9"), ("c", "3")]

/-- An action holding `hdrsOld`. -/
def sHdr : BaseAction := { NewBaseAction "GET" "u" with headers := hdrsOld }

/-! ### C10 — registering a status-code handler on a fresh action panics -/

/-- C10: for every action created by `NewBaseAction`, applying the
`WithStatusCodeHandler` option hits a Go runtime panic (write to a nil
map): the constructor leaves `statusCodeHandlers` nil and the option
assigns into it, which the model renders as the `none` outcome. -/
theorem withStatusCodeHandler_on_fresh_action_panics
    (method url : String) (code : Nat) (h : Bool) :
    applyOption (GoOption.withStatusCodeHandler code h) (NewBaseAction method url) = none := rfl

/-! ### C8 — header option composition -/

/-- C8: on the header mapping of the action, `WithAppendHeaders` merges and
the new mapping wins on key conflict, `WithPrependHeaders` merges and
the existing mapping wins, and `WithHeaders` replaces the
mapping entirely.  Key uniqueness (`Nodup`) is the Go map invariant. -/
theorem header_options_compose (s : BaseAction) (hm : GoMap) (k : String)
    (hOld : (s.headers.map Prod.fst).Nodup) (hNew : (hm.map Prod.fst).Nodup) :
    (applyOption (GoOption.withAppendHeaders hm) s =
        some ({ s with headers := mergedMaps [s.headers, hm] }, none) ∧
      (mergedMaps [s.headers, hm]).lookup k = orOpt (hm.lookup k) (s.headers.lookup k)) ∧
    (applyOption (GoOption.withPrependHeaders hm) s =
        some ({ s with headers := mergedMaps [hm, s.headers] }, none) ∧
      (mergedMaps [hm, s.headers]).lookup k = orOpt (s.headers.lookup k) (hm.lookup k)) ∧
    applyOption (GoOption.withHeaders hm) s = some ({ s with headers := hm }, none) := by
  refine ⟨⟨rfl, ?_⟩, ⟨rfl, ?_⟩, rfl⟩
  · exact lookup_mergedMaps_pair s.headers hm k hOld hNew
  · exact lookup_mergedMaps_pair hm s.headers k hNew hOld

/-- Witness for C8 at concrete maps: on the conflicting key "b" the
appended merge takes the new value. -/
theorem header_options_compose_witness :
    (mergedMaps [hdrsOld, hdrsNew]).lookup "b" = some "9" := by
  have h := (header_options_compose sHdr hdrsNew "b" (by decide) (by decide)).1.2
  rw [show sHdr.headers = hdrsOld from rfl] at h
  rw [h]
  rfl

/-! ### C3 — 400-response classification (code bug: dead `.(int)` arms) -/

/-- C3 (code bug): `json.Unmarshal` into `map[string]any` decodes JSON
numbers as `float64`, so the `respData["code"].(int)` assertion in
`handleResponse` always fails (yielding 0): for body
`{"code":100008}` the classification returns the generic "BadRequest"
error instead of `ErrInvalidPayment`, and likewise `{"code":100056}` does
not yield `ErrNeedEmailAuthorize`; the message-based arm does work. -/
theorem handleResponse_code_arms_dead :
    goAssertInt (goIndex ((jsonUnmarshalMap bodyCode100008).getD []) "code") = (0, false) ∧
    handleResponse { statusCode := 400, contentType := "application/json", requestURL := "u" }
        (some bodyCode100008) = some (GoError.mk "BadRequest") ∧
    handleResponse { statusCode := 400, contentType := "application/json", requestURL := "u" }
        (some bodyCode100056) = some (GoError.mk "BadRequest") ∧
    handleResponse { statusCode := 400, contentType := "application/json", requestURL := "u" }
        (some bodyMsgInvalid) = some ErrInvalidPayment ∧
    handleResponse { statusCode := 400, contentType := "application/json", requestURL := "u" }
        (some bodyOther) = some (GoError.mk "BadRequest") ∧
    GoError.mk "BadRequest" ≠ ErrInvalidPayment ∧
    GoError.mk "BadRequest" ≠ ErrNeedEmailAuthorize := by
  refine ⟨by decide, by decide, by decide, by decide, by decide, by decide, by decide⟩

/-! ### C5 — Do on a fresh action does not fail with EmptyRequest -/

/-- C5 counterexample: `Do` on a newly created action without any prior
`Setup` call does not fail with `ErrEmptyRequest` — `Do` runs `Setup`
itself, which builds the request, and the dispatch then succeeds. -/
theorem Do_fresh_action_no_emptyRequest :
    (Do env200 [] (NewBaseAction "GET" "http://h/")).map (fun r => r.2) = some none ∧
    (none : Option GoError) ≠ some ErrEmptyRequest := by
  exact ⟨by decide, by decide⟩

/-- C5 amended: a dispatch attempt returns `ErrEmptyRequest` exactly when
no request has been built; `Do` cannot reach this state because it runs
`Setup` first. -/
theorem doAttempt_empty_request (env : Nat → AttemptOutcome) (ba : BaseAction)
    (h : ba.request = none) :
    doAttempt env ba = ({ ba with tryCount := ba.tryCount + 1 }, some ErrEmptyRequest) := by
  simp [doAttempt, h]

/-- Witness for the amended C5 at a concrete unconfigured action. -/
theorem doAttempt_empty_request_witness :
    doAttempt env200 (NewBaseAction "GET" "u") =
      ({ NewBaseAction "GET" "u" with tryCount := 1 }, some ErrEmptyRequest) :=
  doAttempt_empty_request env200 (NewBaseAction "GET" "u") rfl

/-! ### C6 — handler rejection bypasses classification -/

/-- C6: whenever a status-code handler is registered for the received
status — any status, 200 included — and returns true, the attempt fails
with the handler-rejection error, bypassing response classification. -/
theorem handler_rejection_bypasses_classification (env : Nat → AttemptOutcome)
    (ba : BaseAction) (req : BuiltRequest) (status : Nat) (ct body : String)
    (hreq : ba.request = some req)
    (henv : env (ba.tryCount + 1) = AttemptOutcome.resp status ct (Except.ok body))
    (hveto : handlerVerdict ba.statusCodeHandlers status = true) :
    (doAttempt env ba).2 = some errStatusHandler := by
  simp [doAttempt, hreq, henv, hveto]

/-- Witness for C6 at status 200 (a nominally successful status). -/
theorem handler_rejection_bypasses_classification_witness :
    (doAttempt env200 baHandler200Built).2 = some errStatusHandler :=
  handler_rejection_bypasses_classification env200 baHandler200Built reqU 200 "" "ok"
    rfl rfl rfl

/-! ### C7 — 2xx success stores the exact body -/

/-- Classification succeeds on every status in [200,300). -/
theorem handleResponse_success (resp : Resp) (body : Option String)
    (h2 : 200 ≤ resp.statusCode) (h3 : resp.statusCode < 300) :
    handleResponse resp body = none := by
  have h429 : resp.statusCode ≠ 429 := by omega
  have h400 : resp.statusCode ≠ 400 := by omega
  simp [handleResponse, h429, h400, h2, h3]

/-- C7: a response with status in [200,300), not vetoed by a handler,
classifies as success and the stored buffer is exactly the body bytes
received on that attempt. -/
theorem success_stores_exact_body (env : Nat → AttemptOutcome)
    (ba : BaseAction) (req : BuiltRequest) (status : Nat) (ct body : String)
    (hreq : ba.request = some req)
    (henv : env (ba.tryCount + 1) = AttemptOutcome.resp status ct (Except.ok body))
    (h2 : 200 ≤ status) (h3 : status < 300)
    (hveto : handlerVerdict ba.statusCodeHandlers status = false) :
    doAttempt env ba =
      ({ ba with tryCount := ba.tryCount + 1, err := none,
                 response := some (Resp.mk status ct req.url),
                 responseBodyBuffer := some body }, none) := by
  have hcls : handleResponse (Resp.mk status ct req.url) (some body) = none :=
    handleResponse_success _ _ h2 h3
  simp [doAttempt, hreq, henv, hveto, hcls]

/-- Witness for C7 on a concrete 204 response. -/
theorem success_stores_exact_body_witness :
    doAttempt (fun _ => AttemptOutcome.resp 204 "" (Except.ok "payload")) baGetUBuilt =
      ({ baGetUBuilt with
          tryCount := 1, err := none, response := some (Resp.mk 204 "" "u"),
          responseBodyBuffer := some "payload" }, none) :=
  success_stores_exact_body _ baGetUBuilt reqU 204 "" "payload" rfl rfl
    (by decide) (by decide) rfl

/-! ### doAttempt invariants -/

/-- One dispatch attempt increments `tryCount` and never touches the built
request, the retry configuration, the handler table or the ghost build
counter. -/
theorem doAttempt_preserves (env : Nat → AttemptOutcome) (ba : BaseAction) :
    (doAttempt env ba).1.request = ba.request ∧
    (doAttempt env ba).1.maxRetry = ba.maxRetry ∧
    (doAttempt env ba).1.tryCount = ba.tryCount + 1 ∧
    (doAttempt env ba).1.buildCount = ba.buildCount ∧
    (doAttempt env ba).1.needRetry = ba.needRetry ∧
    (doAttempt env ba).1.statusCodeHandlers = ba.statusCodeHandlers := by
  obtain ⟨nm, mth, u, reqF, respF, rqb, rsb, hd, sch, tc, mr, nr, rd, er, bc⟩ := ba
  simp only [doAttempt]
  repeat' split
  all_goals simp_all

/-! ### C2 — the repeat resends the stale built request -/

/-- C2 counterexample: with the needs-repeat flag set and a succeeding
transport, `Do` performs two dispatch attempts but `prepareRequest` runs
exactly once (ghost `buildCount` stays 1) and the action still holds the
request built before the first attempt — the repeat is executed with the
stale built request, not a freshly built one. -/
theorem Do_repeat_reuses_stale_request :
    (Do env200 [GoOption.withNeedRetry true] (NewBaseAction "GET" "u")).map
        (fun r => (r.1.buildCount, r.1.tryCount, r.1.request, r.2)) =
      some (1, 2, some reqU, none) := by decide

/-- C2 amended: when the needs-repeat flag triggers, `Do` calls
`Repeat(false)` with no options; since the request is already built,
`Setup` inside `Repeat` is a no-op on the request, so the repeat is a bare
re-dispatch of the same built request and no rebuild happens. -/
theorem Repeat_reuses_built_request (env : Nat → AttemptOutcome) (setupFlag : Bool)
    (ba : BaseAction) (req : BuiltRequest) (h : ba.request = some req) :
    Repeat env setupFlag [] ba = some (doAttempt env ba) ∧
    (doAttempt env ba).1.request = some req ∧
    (doAttempt env ba).1.buildCount = ba.buildCount := by
  have hpre : (doAttempt env ba).1.request = ba.request := (doAttempt_preserves env ba).1
  have hbc : (doAttempt env ba).1.buildCount = ba.buildCount :=
    (doAttempt_preserves env ba).2.2.2.1
  refine ⟨?_, by rw [hpre, h], hbc⟩
  simp [Repeat, Setup, applyOptions, h]

/-- Witness for the amended C2 at a concrete built action. -/
theorem Repeat_reuses_built_request_witness :
    Repeat env200 false [] baGetUBuilt = some (doAttempt env200 baGetUBuilt) ∧
    (doAttempt env200 baGetUBuilt).1.request = some reqU ∧
    (doAttempt env200 baGetUBuilt).1.buildCount = baGetUBuilt.buildCount :=
  Repeat_reuses_built_request env200 false baGetUBuilt reqU rfl

/-! ### C9 — the err field is not updated on every failure path -/

/-- C9 counterexample: a handler rejection makes `Do` return the
handler-rejection error while `Error()` reports nil — the returned error
of the final attempt is not retained on that path. -/
theorem Do_handler_rejection_error_not_retained :
    (Do env200 [] baHandler200).map (fun r => (Error r.1, r.2)) =
      some ((none : Option GoError), some errStatusHandler) ∧
    (none : Option GoError) ≠ some errStatusHandler := ⟨by decide, by decide⟩

/-- C9 amended: during one attempt, `ba.err` records the transport send
result (the error, or nil on success) and the classification result — but
a body-read failure and a handler rejection return their error without
writing `ba.err`, which then holds nil (the successful send), so `Error()`
disagrees with the returned error on those paths. -/
theorem doAttempt_err_tracking (env : Nat → AttemptOutcome) (ba : BaseAction)
    (req : BuiltRequest) (hreq : ba.request = some req) :
    (∀ e, env (ba.tryCount + 1) = AttemptOutcome.sendErr e →
        (doAttempt env ba).1.err = some e ∧ (doAttempt env ba).2 = some e) ∧
    (∀ status ct e, env (ba.tryCount + 1) = AttemptOutcome.resp status ct (Except.error e) →
        (doAttempt env ba).1.err = none ∧ (doAttempt env ba).2 = some e) ∧
    (∀ status ct body, env (ba.tryCount + 1) = AttemptOutcome.resp status ct (Except.ok body) →
        handlerVerdict ba.statusCodeHandlers status = true →
        (doAttempt env ba).1.err = none ∧ (doAttempt env ba).2 = some errStatusHandler) ∧
    (∀ status ct body, env (ba.tryCount + 1) = AttemptOutcome.resp status ct (Except.ok body) →
        handlerVerdict ba.statusCodeHandlers status = false →
        (doAttempt env ba).1.err =
          handleResponse (Resp.mk status ct req.url) (some body)) := by
  refine ⟨?_, ?_, ?_, ?_⟩
  · intro e he
    simp [doAttempt, hreq, he]
  · intro status ct e he
    simp [doAttempt, hreq, he]
  · intro status ct body he hv
    simp [doAttempt, hreq, he, hv]
  · intro status ct body he hv
    cases hh : handleResponse (Resp.mk status ct req.url) (some body) with
    | none => simp [doAttempt, hreq, he, hv, hh]
    | some e =>
      by_cases h429 : status = 429
      · subst h429
        simp [doAttempt, hreq, he, hv, hh]
      · simp [doAttempt, hreq, he, hv, hh, h429]

/-- Witness for the amended C9: on a handler rejection the retained error
is nil while the error returned by the attempt is the rejection error. -/
theorem doAttempt_err_tracking_witness :
    (doAttempt env200 baHandler200Built).1.err = none ∧
    (doAttempt env200 baHandler200Built).2 = some errStatusHandler :=
  (doAttempt_err_tracking env200 baHandler200Built reqU rfl).2.2.1 200 "" "ok" rfl rfl

/-! ### Retry-loop lemmas -/

/-- When `retry` evaluates to false the loop body runs once and returns
the result of that attempt, whatever the fuel. -/
theorem doLoopFuel_no_retry (env : Nat → AttemptOutcome) (fuel : Nat) (ba : BaseAction)
    (hretry : (if 0 < ba.maxRetry then decide (ba.tryCount ≤ ba.maxRetry) else false) = false) :
    doLoopFuel env (fuel + 1) ba = doAttempt env ba := by
  cases hda : doAttempt env ba with
  | mk ba1 r => cases r <;> simp [doLoopFuel, hda, hretry]

/-- When `retry` evaluates to true and the attempt errs, the loop body
recurses on the post-attempt state with one unit of fuel spent. -/
theorem doLoopFuel_step_retry (env : Nat → AttemptOutcome) (fuel : Nat)
    (ba ba1 : BaseAction) (e : GoError)
    (hda : doAttempt env ba = (ba1, some e))
    (hretry : (if 0 < ba.maxRetry then decide (ba.tryCount ≤ ba.maxRetry) else false) = true) :
    doLoopFuel env (fuel + 1) ba = doLoopFuel env fuel ba1 := by
  simp [doLoopFuel, hda, hretry]

/-- Above the actual iteration count of the loop the fuel is irrelevant: the
fuel `doLoop` supplies always exceeds that count, so `doLoopFuel` is an
exact rendering of the unbounded `for` loop in the source. -/
theorem doLoopFuel_fuel_irrelevant (env : Nat → AttemptOutcome) :
    ∀ (fuel : Nat) (ba : BaseAction), ba.maxRetry + 1 ≤ ba.tryCount + fuel →
      doLoopFuel env fuel ba = doLoopFuel env (fuel + 1) ba := by
  intro fuel
  induction fuel with
  | zero =>
    intro ba h
    have hnr : ¬ (ba.tryCount ≤ ba.maxRetry) := by omega
    have hretry : (if 0 < ba.maxRetry then decide (ba.tryCount ≤ ba.maxRetry) else false)
        = false := by
      by_cases h0 : 0 < ba.maxRetry <;> simp [h0, hnr]
    rw [doLoopFuel_no_retry env 0 ba hretry]
    rfl
  | succ f ih =>
    intro ba h
    cases hda : doAttempt env ba with
    | mk ba1 r =>
      cases r with
      | none => simp [doLoopFuel, hda]
      | some e =>
        simp only [doLoopFuel, hda]
        by_cases hretry :
            (if 0 < ba.maxRetry then decide (ba.tryCount ≤ ba.maxRetry) else false) = true
        · rw [if_pos hretry, if_pos hretry]
          have h1 : ba1.maxRetry = ba.maxRetry := by
            have hx := (doAttempt_preserves env ba).2.1
            rw [hda] at hx
            exact hx
          have h2 : ba1.tryCount = ba.tryCount + 1 := by
            have hx := (doAttempt_preserves env ba).2.2.1
            rw [hda] at hx
            exact hx
          exact ih ba1 (by omega)
        · rw [if_neg hretry, if_neg hretry]

/-! ### C4 — every error kind is retried, not just 429 -/

/-- C4 counterexample: a transport-level send error with max retry 1 is
retried — three dispatch attempts happen before it is returned — whereas
the claim says it would be returned immediately with no further attempt. -/
theorem Do_transport_error_retried :
    (Do envSendFail [GoOption.withMaxRetry 1] (NewBaseAction "GET" "u")).map
        (fun r => (r.1.tryCount, r.2)) =
      some (3, some (GoError.mk "connection refused")) ∧
    (3 : Nat) ≠ 1 := ⟨by decide, by decide⟩

/-- C4 amended: the retry loop is error-agnostic.  With max retry 0 the
loop runs a single attempt and returns its result; with max retry positive
and the attempt budget not exhausted, the loop re-dispatches after any
error whatsoever — transport errors and every classified error alike, not
only the rate-limited classification. -/
theorem doLoop_retries_any_error (env : Nat → AttemptOutcome) (ba : BaseAction)
    (e : GoError) :
    (ba.maxRetry = 0 → doLoop env ba = doAttempt env ba) ∧
    (0 < ba.maxRetry → ba.tryCount ≤ ba.maxRetry → (doAttempt env ba).2 = some e →
      doLoop env ba = doLoop env (doAttempt env ba).1) := by
  constructor
  · intro h0
    have hretry : (if 0 < ba.maxRetry then decide (ba.tryCount ≤ ba.maxRetry) else false)
        = false := by simp [h0]
    show doLoopFuel env (ba.maxRetry + 2) ba = doAttempt env ba
    rw [show ba.maxRetry + 2 = (ba.maxRetry + 1) + 1 from rfl]
    exact doLoopFuel_no_retry env (ba.maxRetry + 1) ba hretry
  · intro hpos hle herr
    have hretry : (if 0 < ba.maxRetry then decide (ba.tryCount ≤ ba.maxRetry) else false)
        = true := by simp [hpos, hle]
    cases hda : doAttempt env ba with
    | mk ba1 r =>
      have h1 : ba1.maxRetry = ba.maxRetry := by
        have hx := (doAttempt_preserves env ba).2.1
        rw [hda] at hx
        exact hx
      have h2 : ba1.tryCount = ba.tryCount + 1 := by
        have hx := (doAttempt_preserves env ba).2.2.1
        rw [hda] at hx
        exact hx
      rw [hda] at herr
      simp only at herr
      subst herr
      show doLoopFuel env (ba.maxRetry + 2) ba = doLoopFuel env (ba1.maxRetry + 2) ba1
      rw [h1, show ba.maxRetry + 2 = (ba.maxRetry + 1) + 1 from rfl,
        doLoopFuel_step_retry env (ba.maxRetry + 1) ba ba1 e hda hretry]
      exact doLoopFuel_fuel_irrelevant env (ba.maxRetry + 1) ba1 (by omega)

/-- Witness for the amended C4: with max retry 1, a transport send error on
the first attempt makes the loop continue. -/
theorem doLoop_retries_any_error_witness :
    doLoop envSendFail baRetry1Built =
      doLoop envSendFail (doAttempt envSendFail baRetry1Built).1 :=
  (doLoop_retries_any_error envSendFail baRetry1Built (GoError.mk "connection refused")).2
    (by decide) (by decide) (by decide)

/-! ### C1 — an all-429 run makes N+2 attempts, not N+1 -/

/-- One attempt against an all-429 transport returns `ErrTooManyRequests`
and records it. -/
theorem doAttempt_all429 (ct body : String) (req : BuiltRequest) (ba : BaseAction)
    (hreq : ba.request = some req) (hh : ba.statusCodeHandlers = none) :
    doAttempt (env429 ct body) ba =
      ({ ba with tryCount := ba.tryCount + 1, err := some ErrTooManyRequests,
                 response := some (Resp.mk 429 ct req.url) }, some ErrTooManyRequests) := by
  have hcls : handleResponse (Resp.mk 429 ct req.url) (some body)
      = some ErrTooManyRequests := rfl
  simp [doAttempt, hreq, hh, env429, handlerVerdict, hcls]

/-- The retry loop against an all-429 transport: with positive max retry N
it keeps dispatching until the pre-attempt counter exceeds N, ending at
`max (tryCount+1) (N+2)` attempts with the rate-limit error. -/
theorem doLoopFuel_all429 (ct body : String) (req : BuiltRequest) :
    ∀ (fuel : Nat) (ba : BaseAction), ba.request = some req →
      ba.statusCodeHandlers = none → 0 < ba.maxRetry →
      ba.maxRetry + 2 ≤ ba.tryCount + fuel →
      doLoopFuel (env429 ct body) fuel ba =
        ({ ba with tryCount := max (ba.tryCount + 1) (ba.maxRetry + 2),
                   err := some ErrTooManyRequests,
                   response := some (Resp.mk 429 ct req.url) }, some ErrTooManyRequests) := by
  intro fuel
  induction fuel with
  | zero =>
    intro ba hreq hh hpos hfuel
    have hmax : max (ba.tryCount + 1) (ba.maxRetry + 2) = ba.tryCount + 1 :=
      max_eq_left (by omega)
    rw [hmax]
    exact doAttempt_all429 ct body req ba hreq hh
  | succ f ih =>
    intro ba hreq hh hpos hfuel
    have hda := doAttempt_all429 ct body req ba hreq hh
    by_cases hle : ba.tryCount ≤ ba.maxRetry
    · have hretry : (if 0 < ba.maxRetry then decide (ba.tryCount ≤ ba.maxRetry) else false)
          = true := by simp [hpos, hle]
      simp only [doLoopFuel, hda, hretry, if_true]
      rw [ih ({ ba with tryCount := ba.tryCount + 1, err := some ErrTooManyRequests,
                        response := some (Resp.mk 429 ct req.url) })
            (by simp [hreq]) (by simp [hh]) (by simpa using hpos) (by simp; omega)]
      have hm1 : max (ba.tryCount + 1 + 1) (ba.maxRetry + 2) = ba.maxRetry + 2 :=
        max_eq_right (by omega)
      have hm2 : max (ba.tryCount + 1) (ba.maxRetry + 2) = ba.maxRetry + 2 :=
        max_eq_right (by omega)
      simp [hm1, hm2]
    · have hretry : (if 0 < ba.maxRetry then decide (ba.tryCount ≤ ba.maxRetry) else false)
          = false := by simp [hle]
      simp only [doLoopFuel, hda, hretry]
      have hmax : max (ba.tryCount + 1) (ba.maxRetry + 2) = ba.tryCount + 1 :=
        max_eq_left (by omega)
      rw [hmax]
      simp

/-- C1 counterexample: with max retry 1 and every attempt rate-limited,
`Do` performs three dispatch attempts, not the claimed 1+1 = 2, before
returning the rate-limit error. -/
theorem Do_429_three_attempts_with_maxRetry_one :
    (Do (env429 "" "b") [GoOption.withMaxRetry 1] (NewBaseAction "GET" "u")).map
        (fun r => (r.1.tryCount, r.2)) = some (3, some ErrTooManyRequests) ∧
    (3 : Nat) ≠ 1 + 1 := ⟨by decide, by decide⟩

/-- C1 amended: with configured max retry N > 0 and every attempt
answered 429, `Do` performs exactly N+2 dispatch attempts (the pre-attempt
retry check lets one extra attempt through) and then returns the
rate-limit error as the terminal failure. -/
theorem Do_429_performs_N_plus_two_attempts (N : Nat) (url ct body : String)
    (hN : 0 < N) :
    ∃ ba2 : BaseAction,
      Do (env429 ct body) [GoOption.withMaxRetry N] (NewBaseAction "GET" url) =
        some (ba2, some ErrTooManyRequests) ∧ ba2.tryCount = N + 2 := by
  set req : BuiltRequest := { method := "GET", url := url, body := none, headers := [] }
    with hreqdef
  set ba1 : BaseAction :=
    { NewBaseAction "GET" url with
        maxRetry := N, err := none, request := some req, buildCount := 1 } with hba1
  have hloop := doLoopFuel_all429 ct body req (ba1.maxRetry + 2) ba1 rfl rfl hN
      (by show N + 2 ≤ 0 + (N + 2); omega)
  have hmax : max (ba1.tryCount + 1) (ba1.maxRetry + 2) = N + 2 := by
    show max (0 + 1) (N + 2) = N + 2
    exact max_eq_right (by omega)
  rw [hmax] at hloop
  have hsetup : Setup [GoOption.withMaxRetry N] (NewBaseAction "GET" url)
      = some (ba1, none) := rfl
  set ba2 : BaseAction :=
    { ba1 with
        tryCount := N + 2, err := some ErrTooManyRequests,
        response := some (Resp.mk 429 ct req.url) } with hba2
  refine ⟨ba2, ?_, rfl⟩
  simp only [Do, hsetup, doLoop, hloop]

/-- Witness for the amended C1 at N = 1: three attempts. -/
theorem Do_429_performs_N_plus_two_attempts_witness :
    0 < 1 ∧ ∃ ba2 : BaseAction,
      Do (env429 "ct" "b") [GoOption.withMaxRetry 1] (NewBaseAction "GET" "u") =
        some (ba2, some ErrTooManyRequests) ∧ ba2.tryCount = 1 + 2 :=
  ⟨by decide, Do_429_performs_N_plus_two_attempts 1 "u" "ct" "b" (by decide)⟩

end Httption
